import Mathlib

/-!
Verification of the block-decorator repository (carousel, hero-image,
image-cta-overlay, key-spec, product-details, header, award).

Each block decorator parses authored document rows (label/value cell pairs)
into a style configuration and content items and synthesizes HTML.  This file
shallowly embeds the relevant JavaScript functions as executable Lean
definitions and proves or refutes the specification claims about them.

Conventions:
* JS strings are modelled as Lean `String`; JS string operations
  (`trim`, `toLowerCase`, `split`, `replace`, `includes`) get explicit
  Lean counterparts prefixed with `js`.
* The regular expressions used by the source are small and fixed, so each one
  is embedded directly as a scanning function with the engine's
  leftmost-match (and, for `(.+?)`, lazy) semantics.
* DOM rows are modelled as records of the three strings the code reads from
  a row: `cols[0].textContent`, `cols[1].textContent` and `cols[1].innerHTML`.
* Exceptions (the only reachable one is a TypeError from an assignment to an
  element of `undefined`) are modelled with `Except`.
-/

namespace LgDemo

/-- One authored table row, as read by every `parseDocumentRows` variant:
`label` is `cols[0].textContent`, `text` is `cols[1].textContent` and
`html` is `cols[1].innerHTML`. -/
structure Row where
  label : String
  text : String
  html : String
  deriving Repr, DecidableEq

/-- JS `String.prototype.trim`: drop whitespace from both ends. -/
def jsTrim (s : String) : String :=
  String.mk (((s.data.dropWhile Char.isWhitespace).reverse.dropWhile Char.isWhitespace).reverse)

/-- JS `String.prototype.toLowerCase` (ASCII-adequate model). -/
def jsToLower (s : String) : String :=
  String.mk (s.data.map Char.toLower)

/-- JS `String.prototype.toUpperCase` (ASCII-adequate model). -/
def jsToUpper (s : String) : String :=
  String.mk (s.data.map Char.toUpper)

/-- JS `s.replace(/\s+/g, '')`: remove every whitespace character. -/
def stripWS (s : String) : String :=
  String.mk (s.data.filter (fun c => !c.isWhitespace))

/-- JS `s.replace(re, '')` for the regex matching a single hyphen:
remove every hyphen. -/
def stripHyphens (s : String) : String :=
  String.mk (s.data.filter (fun c => c ≠ '-'))

/-- Helper for `wsRunsToDash`: the `Bool` records whether the previous
character was whitespace (so a run maps to a single dash). -/
def wsDashAux : List Char → Bool → List Char
  | [], _ => []
  | c :: rest, prevWs =>
    if c.isWhitespace then
      (if prevWs then [] else ['-']) ++ wsDashAux rest true
    else
      c :: wsDashAux rest false

/-- JS `s.replace(/\s+/g, '-')`: each whitespace run becomes one dash. -/
def wsRunsToDash (s : String) : String :=
  String.mk (wsDashAux s.data false)

/-- Is `pat` a contiguous sublist of `l`? -/
def listInfix (pat : List Char) : List Char → Bool
  | [] => pat.isEmpty
  | l@(_ :: rest) => pat.isPrefixOf l || listInfix pat rest

/-- JS `s.includes(pat)`. -/
def containsSub (s pat : String) : Bool :=
  listInfix pat.data s.data

/-- Helper for `jsSplitCh`; `accRev` is the current piece, reversed. -/
def splitChAux (sep : Char) : List Char → List Char → List String
  | [], accRev => [String.mk accRev.reverse]
  | c :: rest, accRev =>
    if c = sep then String.mk accRev.reverse :: splitChAux sep rest []
    else splitChAux sep rest (c :: accRev)

/-- JS `s.split(sep)` for a one-character separator; empty pieces are kept. -/
def jsSplitCh (sep : Char) (s : String) : List String :=
  splitChAux sep s.data []

/-- Numeric value of a digit string. -/
def digitsToNat (l : List Char) : Nat :=
  l.foldl (fun n c => 10 * n + (c.toNat - '0'.toNat)) 0

/-- JS `parseInt(s, 10)`, `none` for NaN: skip leading whitespace, optional
sign, then a nonempty run of leading digits. -/
def jsParseInt (s : String) : Option Int :=
  let l := s.data.dropWhile Char.isWhitespace
  let (neg, l) : Bool × List Char :=
    match l with
    | '-' :: rest => (true, rest)
    | '+' :: rest => (false, rest)
    | rest => (false, rest)
  let ds := l.takeWhile Char.isDigit
  if ds.isEmpty then none
  else some (if neg then -(digitsToNat ds : Int) else (digitsToNat ds : Int))

/-!  Embeddings of the fixed regular expressions.

`tryHrefDq` is one anchored attempt of `/href="([^"]+)"/` at the start of a
character list; `firstMatch` supplies the engine's left-to-right scan.
`tryHrefAnyQ` and `trySrcAnyQ` embed the hero-image variants
`/href=["']([^"']+)["']/` and `/src=["']([^"']+)["']/`. -/

/-- One anchored attempt of `href="([^"]+)"`: the literal `href="`, then a
nonempty greedy run of non-quote characters, then a closing quote (the run
being shorter than the remainder means exactly that a quote follows it). -/
def tryHrefDq (s : List Char) : Option String :=
  if "href=\"".data.isPrefixOf s then
    let rest := s.drop 6
    let cap := rest.takeWhile (fun c => c ≠ '"')
    if cap ≠ [] ∧ cap.length < rest.length then some (String.mk cap) else none
  else none

/-- One anchored attempt of `src="([^"]+)"`. -/
def trySrcDq (s : List Char) : Option String :=
  if "src=\"".data.isPrefixOf s then
    let rest := s.drop 5
    let cap := rest.takeWhile (fun c => c ≠ '"')
    if cap ≠ [] ∧ cap.length < rest.length then some (String.mk cap) else none
  else none

/-- One anchored attempt of `href=["']([^"']+)["']` (either quote may open
and either may close). -/
def tryHrefAnyQ (s : List Char) : Option String :=
  if "href=".data.isPrefixOf s then
    match s.drop 5 with
    | [] => none
    | q :: rest =>
      if q = '"' ∨ q = '\'' then
        let cap := rest.takeWhile (fun c => c ≠ '"' ∧ c ≠ '\'')
        if cap ≠ [] ∧ cap.length < rest.length then some (String.mk cap) else none
      else none
  else none

/-- One anchored attempt of `src=["']([^"']+)["']`. -/
def trySrcAnyQ (s : List Char) : Option String :=
  if "src=".data.isPrefixOf s then
    match s.drop 4 with
    | [] => none
    | q :: rest =>
      if q = '"' ∨ q = '\'' then
        let cap := rest.takeWhile (fun c => c ≠ '"' ∧ c ≠ '\'')
        if cap ≠ [] ∧ cap.length < rest.length then some (String.mk cap) else none
      else none
  else none

/-- Left-to-right scan: the first start position where `f` matches wins,
like `String.prototype.match` without the `g` flag. -/
def firstMatch (f : List Char → Option String) : List Char → Option String
  | [] => none
  | l@(_ :: rest) =>
    match f l with
    | some u => some u
    | none => firstMatch f rest

/-- All matches, scanning left to right and resuming after each match, like
`String.prototype.match` with the `g` flag.  `consumed u` is the length of
the full match whose capture is `u`; the fuel argument (instantiated with the
list length) only bounds the recursion. -/
def allMatchesAux (f : List Char → Option String) (consumed : String → Nat) :
    Nat → List Char → List String
  | 0, _ => []
  | _, [] => []
  | fuel + 1, l@(_ :: rest) =>
    match f l with
    | some u => u :: allMatchesAux f consumed fuel (l.drop (consumed u))
    | none => allMatchesAux f consumed fuel rest

/-- `html.match(/href="([^"]+)"/)`, returning the capture group. -/
def findHrefDq (html : String) : Option String :=
  firstMatch tryHrefDq html.data

/-- `html.match(/src="([^"]+)"/)`, returning the capture group. -/
def findSrcDq (html : String) : Option String :=
  firstMatch trySrcDq html.data

/-- `html.match(/href="([^"]+)"/g)`, as the list of capture groups (the
source immediately strips the `href="` and `"` wrappers from each match). -/
def allHrefsDq (html : String) : List String :=
  allMatchesAux tryHrefDq (fun u => 7 + u.length) html.data.length html.data

/-- `html.match(/src="([^"]+)"/g)`, as the list of capture groups. -/
def allSrcsDq (html : String) : List String :=
  allMatchesAux trySrcDq (fun u => 6 + u.length) html.data.length html.data

/-!  The numbered-label regular expression `/^(.+?)#?(\d+)$/`. -/

/-- Does `r` match `#?\d+` exactly?  If so, return the digits: when `r`
starts with `#` the rest must be a nonempty digit run, otherwise `r` itself
must be one. -/
def matchRest : List Char → Option (List Char)
  | [] => none
  | c :: rest =>
    if c = '#' then
      if rest ≠ [] ∧ rest.all Char.isDigit then some rest else none
    else
      if (c :: rest).all Char.isDigit then some (c :: rest) else none

/-- Lazy scan for `/^(.+?)#?(\d+)$/`: the shortest nonempty prefix whose
remainder matches `#?\d+` wins.  Returns the first capture (as a string) and
the numeric value of the digit capture. -/
def lazyNumAux (accRev : List Char) : List Char → Option (String × Nat)
  | [] => none
  | c :: rest =>
    match matchRest rest with
    | some ds => some (String.mk (accRev.reverse ++ [c]), digitsToNat ds)
    | none => lazyNumAux (c :: accRev) rest

/-- `label.match(/^(.+?)#?(\d+)$/)`: `some (name, n)` when the label ends in
an (optionally `#`-prefixed) digit run with a nonempty name before it. -/
def lazyNumMatch (l : List Char) : Option (String × Nat) :=
  lazyNumAux [] l

/-- `extractImageUrl(text, html)` as defined (identically) in
`carousel.js` and `image-cta-overlay.js`: anchor `href` first, then `img`
`src`, then the plain text when it starts with `http` or `/`. -/
def extractImageUrl (text html : String) : String :=
  match (if html ≠ "" ∧ containsSub html "href=\"" then findHrefDq html else none) with
  | some u => u
  | none =>
    match (if html ≠ "" ∧ containsSub html "src=\"" then findSrcDq html else none) with
    | some u => u
    | none =>
      if text ≠ "" ∧ (text.startsWith "http" ∨ text.startsWith "/") then jsTrim text
      else ""

namespace Carousel

/-- The style record of `carousel.js parseDocumentRows`. -/
structure Styles where
  align : String
  marginTop : Bool
  marginBottom : Bool
  backgroundColor : String
  headlineFontDesktop : String
  headlineFontMobile : String
  bodyFontDesktop : String
  bodyFontMobile : String
  autoplay : Bool
  autoplayDelay : Int
  deriving Repr, DecidableEq

/-- The initial (default) style values of `carousel.js parseDocumentRows`. -/
def defaultStyles : Styles :=
  { align := "center", marginTop := true, marginBottom := true,
    backgroundColor := "default",
    headlineFontDesktop := "40px-semibold", headlineFontMobile := "24px-light",
    bodyFontDesktop := "16px-normal", bodyFontMobile := "14px-normal",
    autoplay := false, autoplayDelay := 5000 }

/-- One slide record of `carousel.js`. -/
structure Slide where
  headline : String
  bodyCopy : String
  image : String
  altTag : String
  deriving Repr, DecidableEq

/-- The empty slide pushed by the padding loop. -/
def emptySlide : Slide :=
  { headline := "", bodyCopy := "", image := "", altTag := "" }

/-- Parser state while walking the rows: styles, the `slides` array and the
`images` array collected from comma-separated image rows. -/
structure PState where
  styles : Styles
  slides : List Slide
  images : List String
  deriving Repr, DecidableEq

/-- The only exception reachable in the embedded code: a TypeError from
assigning a property of `undefined` (`slides[-1].field = v`). -/
inductive JsError
  | typeError
  deriving Repr, DecidableEq

/-- The style `switch` of `carousel.js parseDocumentRows` (cases in source
order; string comparisons are disjoint, so chained ifs are equivalent). -/
def styleStep (st : PState) (label value htmlValue rawValue : String) : PState :=
  if label = "contentalignment" ∨ label = "align" then
    { st with styles := { st.styles with align := if value = "" then "center" else value } }
  else if label = "margintop" then
    { st with styles := { st.styles with marginTop := value == "yes" || value == "true" } }
  else if label = "marginbottom" then
    { st with styles := { st.styles with marginBottom := value == "yes" || value == "true" } }
  else if label = "backgroundcolor" ∨ label = "background" then
    { st with styles := { st.styles with backgroundColor := if value = "" then "default" else value } }
  else if label = "headlinefontstyledesktop" ∨ label = "headlinefontdesktop" then
    { st with styles := { st.styles with headlineFontDesktop := wsRunsToDash value } }
  else if label = "headlinefontstylemobile" ∨ label = "headlinefontmobile" then
    { st with styles := { st.styles with headlineFontMobile := wsRunsToDash value } }
  else if label = "bodyfontstyledesktop" ∨ label = "bodyfontdesktop" then
    { st with styles := { st.styles with bodyFontDesktop := wsRunsToDash value } }
  else if label = "bodyfontstylemobile" ∨ label = "bodyfontmobile" then
    { st with styles := { st.styles with bodyFontMobile := wsRunsToDash value } }
  else if label = "autoplay" then
    { st with styles := { st.styles with autoplay := value == "yes" || value == "true" } }
  else if label = "autoplaydelay" then
    { st with styles := { st.styles with autoplayDelay :=
        (match jsParseInt rawValue with
          | some v => if v = 0 then 5000 else v
          | none => 5000) } }
  else if label = "images" ∨ label = "image" then
    let imgUrls := ((jsSplitCh ',' rawValue).map jsTrim).filter (fun s => s ≠ "")
    let images1 := imgUrls.foldl
      (fun acc url =>
        let cleanUrl := extractImageUrl url ""
        if cleanUrl ≠ "" then acc ++ [cleanUrl] else acc)
      st.images
    let images2 :=
      if containsSub htmlValue "<a" ∨ containsSub htmlValue "<img" then
        let withLinks := (allHrefsDq htmlValue).foldl
          (fun acc url => if url ∈ acc then acc else acc ++ [url]) images1
        (allSrcsDq htmlValue).foldl
          (fun acc url => if url ∈ acc then acc else acc ++ [url]) withLinks
      else images1
    { st with images := images2 }
  else st

/-- The `while (slides.length <= slideIndex) slides.push({...})` loop. -/
def padSlides (slides : List Slide) (idx : Int) : List Slide :=
  if (slides.length : Int) ≤ idx then
    slides ++ List.replicate (idx + 1 - slides.length).toNat emptySlide
  else slides

/-- Is `prop` one of the recognized numbered slide properties (the cases of
the inner `switch`)?  Only these perform the `slides[slideIndex].field`
assignment. -/
def isSlideProp (prop : String) : Bool :=
  prop == "image" || prop == "headline" || prop == "bodycopy" || prop == "body" ||
    prop == "alttag" || prop == "alt"

/-- The assignment performed by the inner `switch` for a recognized
property. -/
def updateSlide (s : Slide) (prop rawValue htmlValue : String) : Slide :=
  if prop = "image" then { s with image := extractImageUrl rawValue htmlValue }
  else if prop = "headline" then { s with headline := rawValue }
  else if prop = "bodycopy" ∨ prop = "body" then { s with bodyCopy := rawValue }
  else if prop = "alttag" ∨ prop = "alt" then { s with altTag := rawValue }
  else s

/-- The numbered-slide part of the row loop.  For `slideIndex = -1` (label
index `0`) the padding loop does not run and the assignment dereferences
`slides[-1]`, which is `undefined`: a TypeError. -/
def numberedStep (st : PState) (label rawValue htmlValue : String) :
    Except JsError PState :=
  match lazyNumMatch label.data with
  | none => Except.ok st
  | some (nameRaw, n) =>
    let prop := stripWS nameRaw
    let slideIndex : Int := (n : Int) - 1
    let slides := padSlides st.slides slideIndex
    if isSlideProp prop then
      if slideIndex < 0 then Except.error JsError.typeError
      else
        let i := slideIndex.toNat
        Except.ok { st with
          slides := slides.set i (updateSlide (slides.getD i emptySlide) prop rawValue htmlValue) }
    else Except.ok { st with slides := slides }

/-- One iteration of the row loop of `carousel.js parseDocumentRows`. -/
def processRow (st : PState) (r : Row) : Except JsError PState :=
  let label := stripWS (jsToLower (jsTrim r.label))
  let value := jsToLower (jsTrim r.text)
  let htmlValue := jsTrim r.html
  let rawValue := jsTrim r.text
  numberedStep (styleStep st label value htmlValue rawValue) label rawValue htmlValue

/-- `images.forEach((imgUrl, index) => { if (index < slides.length)
slides[index].image = imgUrl; })`. -/
def assignImages : List Slide → List String → List Slide
  | [], _ => []
  | s :: rest, [] => s :: rest
  | s :: rest, u :: us => { s with image := u } :: assignImages rest us

/-- `carousel.js parseDocumentRows`, from the list of well-formed rows (rows
with fewer than two cells are skipped by the source and are not modelled) to
the styles and slides, or the uncaught TypeError. -/
def parseDocumentRows (rows : List Row) : Except JsError (Styles × List Slide) := do
  let st ← rows.foldlM processRow
    { styles := defaultStyles, slides := [], images := [] }
  let slides1 := assignImages st.slides st.images
  let slides2 :=
    if slides1 = [] ∧ st.images ≠ [] then
      st.images.map (fun u => { emptySlide with image := u })
    else slides1
  return (st.styles, slides2)

/-- `buildClassList` of `carousel.js`, as the list of class tokens. -/
def classTokens (styles : Styles) : List String :=
  ["carousel-inner"]
    ++ ["carousel--align-" ++ styles.align]
    ++ (if styles.backgroundColor ≠ "default" then ["carousel--bg-" ++ styles.backgroundColor] else [])
    ++ (if styles.marginTop then ["carousel--margin-top"] else [])
    ++ (if styles.marginBottom then ["carousel--margin-bottom"] else [])

/-- `buildClassList` of `carousel.js`: the tokens joined with spaces. -/
def buildClassList (styles : Styles) : String :=
  String.intercalate " " (classTokens styles)

/-- `createSlideHTML` of `carousel.js`. -/
def createSlideHTML (slide : Slide) (index : Nat) (isActive : Bool) : String :=
  let activeClass := if isActive then "carousel-slide--active" else ""
  "<div class=\"carousel-slide " ++ activeClass ++ "\" data-slide-index=\"" ++ toString index ++ "\">"
    ++ "<div class=\"carousel-slide-content\">"
    ++ (if slide.headline ≠ "" then
          "<h2 class=\"carousel-slide-headline\">" ++ slide.headline ++ "</h2>"
        else "")
    ++ (if slide.bodyCopy ≠ "" then
          "<p class=\"carousel-slide-body\">" ++ slide.bodyCopy ++ "</p>"
        else "")
    ++ "</div>"
    ++ (if slide.image ≠ "" then
          "<div class=\"carousel-slide-image\">"
            ++ "<img src=\"" ++ slide.image ++ "\" alt=\""
            ++ (if slide.altTag ≠ "" then slide.altTag else "") ++ "\" loading=\"lazy\">"
            ++ "</div>"
        else "")
    ++ "</div>"

/-- `initCarousel`: `let currentSlide = 0`. -/
def initialSlide : Nat := 0

/-- `nextSlide` of `initCarousel`: `(currentSlide + 1) % slidesCount`. -/
def nextSlide (slidesCount current : Nat) : Nat :=
  (current + 1) % slidesCount

/-- `prevSlide` of `initCarousel`.  The source computes
`(currentSlide - 1 + slidesCount) % slidesCount` over JS numbers; since
`currentSlide ≥ 0` this equals `(current + slidesCount - 1) % slidesCount`,
which is the same value over `Nat`. -/
def prevSlide (slidesCount current : Nat) : Nat :=
  (current + slidesCount - 1) % slidesCount

end Carousel

namespace Ico

/-- The style record of `image-cta-overlay.js parseDocumentRows`. -/
structure Styles where
  blockType : String
  mediaType : String
  align : String
  marginTop : Bool
  marginBottom : Bool
  backgroundColor : String
  headlineFontDesktop : String
  headlineFontMobile : String
  bodyFontDesktop : String
  bodyFontMobile : String
  deriving Repr, DecidableEq

/-- The initial (default) style values of `image-cta-overlay.js`. -/
def defaultStyles : Styles :=
  { blockType := "three-blocks", mediaType := "animation", align := "left",
    marginTop := true, marginBottom := true, backgroundColor := "default",
    headlineFontDesktop := "40px-semibold", headlineFontMobile := "24px-light",
    bodyFontDesktop := "16px-normal", bodyFontMobile := "14px-normal" }

/-- One card record of `image-cta-overlay.js`. -/
structure Card where
  image : String
  video : String
  headline : String
  bodyCopy : String
  altTag : String
  ctaUrl : String
  ctaText : String
  deriving Repr, DecidableEq

/-- An all-empty card. -/
def emptyCard : Card :=
  { image := "", video := "", headline := "", bodyCopy := "", altTag := "",
    ctaUrl := "", ctaText := "" }

/-- The pre-allocated fixed-size `cards` array for 3 cards (max). -/
def initialCards : List Card := [emptyCard, emptyCard, emptyCard]

/-- `extractVideoUrl` of `image-cta-overlay.js`. -/
def extractVideoUrl (text : String) : String :=
  if text = "" then ""
  else
    let trimmed := jsTrim text
    if trimmed.startsWith "http" ∨ trimmed.startsWith "/" then trimmed else ""

/-- The style `switch` of `image-cta-overlay.js parseDocumentRows` (cases in
source order). -/
def styleStep (st : Styles) (label value : String) : Styles :=
  if label = "selectblocktype" ∨ label = "blocktype" then
    { st with blockType := if value = "" then "three-blocks" else value }
  else if label = "mediatypeitems" ∨ label = "mediatype" then
    { st with mediaType := if value = "" then "animation" else value }
  else if label = "contentalignment" ∨ label = "align" then
    { st with align := if value = "" then "left" else value }
  else if label = "margintop" then
    { st with marginTop := value == "yes" || value == "true" }
  else if label = "marginbottom" then
    { st with marginBottom := value == "yes" || value == "true" }
  else if label = "backgroundcolor" ∨ label = "background" then
    { st with backgroundColor := if value = "" then "default" else value }
  else if label = "headlinefontstyledesktop" ∨ label = "headlinefontdesktop" then
    { st with headlineFontDesktop := wsRunsToDash value }
  else if label = "headlinefontstylemobile" ∨ label = "headlinefontmobile" then
    { st with headlineFontMobile := wsRunsToDash value }
  else if label = "bodyfontstyledesktop" ∨ label = "bodyfontdesktop" then
    { st with bodyFontDesktop := wsRunsToDash value }
  else if label = "bodyfontstylemobile" ∨ label = "bodyfontmobile" then
    { st with bodyFontMobile := wsRunsToDash value }
  else st

/-- The assignment performed by the inner numbered-card `switch` for one
recognized property; other properties leave the card unchanged. -/
def updateCard (c : Card) (prop rawValue htmlValue : String) : Card :=
  if prop = "image" ∨ prop = "thumbnailimage" then
    { c with image := extractImageUrl rawValue htmlValue }
  else if prop = "video" ∨ prop = "animationvideo" then
    { c with video := extractVideoUrl rawValue }
  else if prop = "headline" then { c with headline := rawValue }
  else if prop = "bodycopy" ∨ prop = "body" then { c with bodyCopy := rawValue }
  else if prop = "alttag" ∨ prop = "alt" then { c with altTag := rawValue }
  else if prop = "ctaurl" ∨ prop = "cta" then { c with ctaUrl := rawValue }
  else if prop = "ctatext" then { c with ctaText := rawValue }
  else c

/-- One iteration of the row loop of `image-cta-overlay.js
parseDocumentRows`: the style switch, then the numbered-card part guarded by
`0 <= cardIndex && cardIndex < cards.length`. -/
def processRow (st : Styles × List Card) (r : Row) : Styles × List Card :=
  let label := stripWS (jsToLower (jsTrim r.label))
  let value := jsToLower (jsTrim r.text)
  let htmlValue := jsTrim r.html
  let rawValue := jsTrim r.text
  let styles := styleStep st.1 label value
  let cards :=
    match lazyNumMatch label.data with
    | none => st.2
    | some (nameRaw, n) =>
      let prop := stripWS nameRaw
      let cardIndex : Int := (n : Int) - 1
      if 0 ≤ cardIndex ∧ cardIndex < (st.2.length : Int) then
        let i := cardIndex.toNat
        st.2.set i (updateCard (st.2.getD i emptyCard) prop rawValue htmlValue)
      else st.2
  (styles, cards)

/-- Does a card carry any content (`card.image || card.video ||
card.headline || card.bodyCopy`)? -/
def hasContent (c : Card) : Bool :=
  c.image ≠ "" || c.video ≠ "" || c.headline ≠ "" || c.bodyCopy ≠ ""

/-- `image-cta-overlay.js parseDocumentRows`: walk the rows, then filter out
empty cards, falling back to the full pre-allocated array when every card is
empty. -/
def parseDocumentRows (rows : List Row) : Styles × List Card :=
  let p := rows.foldl processRow (defaultStyles, initialCards)
  let validCards := p.2.filter hasContent
  (p.1, if validCards.length > 0 then validCards else p.2)

/-- `createCardHTML` of `image-cta-overlay.js` (template-literal whitespace
reproduced byte for byte). -/
def createCardHTML (card : Card) (index : Nat) : String :=
  let hasVideo := card.video ≠ ""
  "<div class=\"image-cta-overlay-card\" data-card-index=\"" ++ toString index ++ "\">"
    ++ "<div class=\"image-cta-overlay-media\">"
    ++ (if card.image ≠ "" then
          "<img src=\"" ++ card.image ++ "\" alt=\""
            ++ (if card.altTag ≠ "" then card.altTag else "")
            ++ "\" loading=\"lazy\" class=\"image-cta-overlay-img\">"
        else "")
    ++ (if hasVideo then
          "\n      <video \n        class=\"image-cta-overlay-video\" \n        src=\""
            ++ card.video
            ++ "\" \n        muted \n        loop \n        playsinline\n        preload=\"metadata\"\n      ></video>\n    "
            ++ "\n      <button class=\"image-cta-overlay-play-btn\" type=\"button\" aria-label=\"Play animation\">\n        <svg class=\"play-icon\" viewBox=\"0 0 64 64\" fill=\"none\" xmlns=\"http://www.w3.org/2000/svg\">\n          <circle cx=\"32\" cy=\"32\" r=\"30\" fill=\"rgba(0,0,0,0.5)\" stroke=\"white\" stroke-width=\"2\"/>\n          <polygon points=\"26,20 26,44 46,32\" fill=\"white\"/>\n        </svg>\n      </button>\n    "
            ++ "\n      <button class=\"image-cta-overlay-pause-btn\" type=\"button\" aria-label=\"Pause animation\" style=\"display: none;\">\n        <svg class=\"pause-icon\" viewBox=\"0 0 64 64\" fill=\"none\" xmlns=\"http://www.w3.org/2000/svg\">\n          <circle cx=\"32\" cy=\"32\" r=\"30\" fill=\"rgba(0,0,0,0.5)\" stroke=\"white\" stroke-width=\"2\"/>\n          <rect x=\"22\" y=\"20\" width=\"8\" height=\"24\" fill=\"white\"/>\n          <rect x=\"34\" y=\"20\" width=\"8\" height=\"24\" fill=\"white\"/>\n        </svg>\n      </button>\n    "
        else "")
    ++ "</div>"
    ++ "<div class=\"image-cta-overlay-content\">"
    ++ (if card.headline ≠ "" then
          "<h3 class=\"image-cta-overlay-headline\">" ++ card.headline ++ "</h3>"
        else "")
    ++ (if card.bodyCopy ≠ "" then
          "<p class=\"image-cta-overlay-body\">" ++ card.bodyCopy ++ "</p>"
        else "")
    ++ (if card.ctaUrl ≠ "" ∧ card.ctaText ≠ "" then
          "<a href=\"" ++ card.ctaUrl ++ "\" class=\"image-cta-overlay-cta\">" ++ card.ctaText ++ "</a>"
        else "")
    ++ "</div>"
    ++ "</div>"

end Ico

namespace Hero

/-- The style record of `hero-image.js parseDocumentRows`. -/
structure Styles where
  variantType : String
  textColorDesktop : String
  textColorMobile : String
  textWidth : String
  horizontalAlignment : String
  verticalAlignment : String
  verticalAlignmentMobile : String
  ctaType : String
  buttonType : String
  target : String
  mediaType : String
  imageSize : String
  height : String
  marginTop : Bool
  marginBottom : Bool
  border : Bool
  backgroundColor : String
  padding : String
  textStyleDesktop : String
  textStyleMobile : String
  deriving Repr, DecidableEq

/-- The initial (default) style values of `hero-image.js`. -/
def defaultStyles : Styles :=
  { variantType := "default", textColorDesktop := "white", textColorMobile := "white",
    textWidth := "narrow", horizontalAlignment := "left", verticalAlignment := "middle",
    verticalAlignmentMobile := "bottom", ctaType := "button", buttonType := "primary",
    target := "_self", mediaType := "image", imageSize := "wide", height := "auto",
    marginTop := false, marginBottom := false, border := false,
    backgroundColor := "black", padding := "none",
    textStyleDesktop := "40px-semibold", textStyleMobile := "24px-semibold" }

/-- The content record of `hero-image.js parseDocumentRows`. -/
structure Content where
  eyebrow : String
  headline : String
  bodyCopy : String
  cta : String
  ctaUrl : String
  altTag : String
  heroImageDesktop : String
  heroImageMobile : String
  deriving Repr, DecidableEq

/-- The initial (all-empty) content values of `hero-image.js`. -/
def emptyContent : Content :=
  { eyebrow := "", headline := "", bodyCopy := "", cta := "", ctaUrl := "",
    altTag := "", heroImageDesktop := "", heroImageMobile := "" }

/-- `extractImageUrl` of `hero-image.js`: anchor `href` (behind an `<a`
guard), then `img` `src` (behind an `<img` guard), then the plain text
unconditionally (`textValue || ''` is the identity on strings). -/
def extractImageUrl (textValue htmlValue : String) : String :=
  match (if htmlValue ≠ "" ∧ containsSub htmlValue "<a" then
      firstMatch tryHrefAnyQ htmlValue.data
    else none) with
  | some u => u
  | none =>
    match (if htmlValue ≠ "" ∧ containsSub htmlValue "<img" then
        firstMatch trySrcAnyQ htmlValue.data
      else none) with
    | some u => u
    | none => textValue

/-- One iteration of the row loop of `hero-image.js parseDocumentRows` (the
single `switch` covers style and content cases; source order kept). -/
def processRow (st : Styles × Content) (r : Row) : Styles × Content :=
  let label := stripHyphens (stripWS (jsToLower (jsTrim r.label)))
  let value := jsTrim r.text
  let valueLower := jsToLower value
  let htmlValue := jsTrim r.html
  let styles := st.1
  let content := st.2
  if label = "varianttype" ∨ label = "selectherobannervarianttype" then
    ({ styles with variantType := if valueLower = "" then "default" else valueLower }, content)
  else if label = "textcolordesktop" then
    ({ styles with textColorDesktop := if valueLower = "" then "white" else valueLower }, content)
  else if label = "textcolormobile" then
    ({ styles with textColorMobile := if valueLower = "" then "white" else valueLower }, content)
  else if label = "textwidth" then
    ({ styles with textWidth :=
        if containsSub valueLower "narrow" then "narrow"
        else if containsSub valueLower "wide" then "wide"
        else "normal" }, content)
  else if label = "textblockhorizontalalignment" ∨ label = "horizontalalignment" then
    ({ styles with horizontalAlignment :=
        if valueLower = "center" then "center"
        else if valueLower = "right" then "right"
        else "left" }, content)
  else if label = "textblockverticalalignment" ∨ label = "verticalalignment" then
    ({ styles with verticalAlignment :=
        if valueLower = "top" then "top"
        else if valueLower = "bottom" then "bottom"
        else "middle" }, content)
  else if label = "textblockverticalalignmentmobile" ∨ label = "verticalalignmentmobile" then
    ({ styles with verticalAlignmentMobile :=
        if valueLower = "top" then "top"
        else if valueLower = "middle" then "middle"
        else "bottom" }, content)
  else if label = "ctatype" then
    ({ styles with ctaType := if valueLower = "" then "button" else valueLower }, content)
  else if label = "buttontype" then
    ({ styles with buttonType := if valueLower = "" then "primary" else valueLower }, content)
  else if label = "target" then
    ({ styles with target := if value = "" then "_self" else value }, content)
  else if label = "mediatype" ∨ label = "mediatypeitems" then
    ({ styles with mediaType := if valueLower = "" then "image" else valueLower }, content)
  else if label = "imagesize" then
    ({ styles with imageSize := if valueLower = "" then "wide" else valueLower }, content)
  else if label = "height" then
    ({ styles with height := if valueLower = "" then "auto" else valueLower }, content)
  else if label = "margintop" then
    ({ styles with marginTop := valueLower == "yes" || valueLower == "true" }, content)
  else if label = "marginbottom" then
    ({ styles with marginBottom := valueLower == "yes" || valueLower == "true" }, content)
  else if label = "border" then
    ({ styles with border := valueLower == "yes" || valueLower == "true" }, content)
  else if label = "backgroundcolor" ∨ label = "background" then
    ({ styles with backgroundColor := if valueLower = "" then "black" else valueLower }, content)
  else if label = "padding" then
    ({ styles with padding := if valueLower = "" then "none" else valueLower }, content)
  else if label = "textstyledesktop" then
    ({ styles with textStyleDesktop :=
        if wsRunsToDash valueLower = "" then "40px-semibold" else wsRunsToDash valueLower }, content)
  else if label = "textstylemobile" then
    ({ styles with textStyleMobile :=
        if wsRunsToDash valueLower = "" then "24px-semibold" else wsRunsToDash valueLower }, content)
  else if label = "eyebrow" then
    (styles, { content with eyebrow := htmlValue })
  else if label = "headline" then
    (styles, { content with headline := htmlValue })
  else if label = "bodycopy" ∨ label = "body" then
    (styles, { content with bodyCopy := htmlValue })
  else if label = "cta" then
    (styles, { content with cta := htmlValue })
  else if label = "ctaurl" then
    (styles, { content with ctaUrl := value })
  else if label = "alttag" ∨ label = "alt" then
    (styles, { content with altTag := value })
  else if label = "heroimagedesktop" then
    (styles, { content with heroImageDesktop := extractImageUrl value htmlValue })
  else if label = "heroimagemobile" then
    (styles, { content with heroImageMobile := extractImageUrl value htmlValue })
  else if label = "heroimage" ∨ label = "image" then
    if containsSub value "," then
      let images := ((jsSplitCh ',' value).map jsTrim).filter (fun s => s ≠ "")
      (styles, { content with
        heroImageDesktop := images.getD 0 "",
        heroImageMobile :=
          if images.getD 1 "" ≠ "" then images.getD 1 ""
          else images.getD 0 "" })
    else
      let imgUrl := extractImageUrl value htmlValue
      (styles, { content with
        heroImageDesktop := if content.heroImageDesktop = "" then imgUrl else content.heroImageDesktop,
        heroImageMobile := if content.heroImageMobile = "" then imgUrl else content.heroImageMobile })
  else st

/-- `hero-image.js parseDocumentRows`. -/
def parseDocumentRows (rows : List Row) : Styles × Content :=
  rows.foldl processRow (defaultStyles, emptyContent)

/-- `buildClassList` of `hero-image.js`, as the list of class tokens. -/
def classTokens (styles : Styles) : List String :=
  ["hero-image-container",
   "hero-image--variant-" ++ styles.variantType,
   "hero-image--text-color-desktop-" ++ styles.textColorDesktop,
   "hero-image--text-color-mobile-" ++ styles.textColorMobile,
   "hero-image--text-width-" ++ styles.textWidth,
   "hero-image--h-align-" ++ styles.horizontalAlignment,
   "hero-image--v-align-" ++ styles.verticalAlignment,
   "hero-image--v-align-mobile-" ++ styles.verticalAlignmentMobile,
   "hero-image--cta-" ++ styles.ctaType,
   "hero-image--btn-" ++ styles.buttonType,
   "hero-image--image-size-" ++ styles.imageSize,
   "hero-image--bg-" ++ styles.backgroundColor]
    ++ (if styles.marginTop then ["hero-image--margin-top"] else [])
    ++ (if styles.marginBottom then ["hero-image--margin-bottom"] else [])
    ++ (if styles.border then ["hero-image--border"] else [])
    ++ (if styles.padding ≠ "none" then ["hero-image--padding-" ++ styles.padding] else [])

/-- `buildClassList` of `hero-image.js`: the tokens joined with spaces. -/
def buildClassList (styles : Styles) : String :=
  String.intercalate " " (classTokens styles)

/-- `createHeroImageHTML` of `hero-image.js` (template-literal whitespace
reproduced byte for byte). -/
def createHeroImageHTML (content : Content) (styles : Styles) : String :=
  let desktopImage := content.heroImageDesktop
  let mobileImage := if content.heroImageMobile = "" then desktopImage else content.heroImageMobile
  "<div class=\"hero-image-inner\">"
    ++ (if desktopImage ≠ "" then
          "\n      <div class=\"hero-image-media\">\n        <picture>\n          <source media=\"(max-width: 768px)\" srcset=\""
            ++ mobileImage
            ++ "\">\n          <img src=\"" ++ desktopImage ++ "\" alt=\""
            ++ (if content.altTag ≠ "" then content.altTag else "")
            ++ "\" loading=\"lazy\" class=\"hero-image-bg\">\n        </picture>\n      </div>\n    "
        else "")
    ++ "<div class=\"hero-image-content\">"
    ++ (if content.eyebrow ≠ "" then
          "<span class=\"hero-image-eyebrow\">" ++ content.eyebrow ++ "</span>"
        else "")
    ++ (if content.headline ≠ "" then
          "<h1 class=\"hero-image-headline\">" ++ content.headline ++ "</h1>"
        else "")
    ++ (if content.bodyCopy ≠ "" then
          "<p class=\"hero-image-body\">" ++ content.bodyCopy ++ "</p>"
        else "")
    ++ (if content.cta ≠ "" then
          "<a href=\"" ++ (if content.ctaUrl = "" then "#" else content.ctaUrl)
            ++ "\" target=\"" ++ (if styles.target = "" then "_self" else styles.target)
            ++ "\" class=\"hero-image-cta hero-image-cta--" ++ styles.buttonType ++ "\">"
            ++ content.cta ++ "</a>"
        else "")
    ++ "</div>"
    ++ "</div>"

end Hero

namespace KeySpec

/-- One specification row of `key-spec.js`. -/
structure Spec where
  leftLabel : String
  leftValue : String
  rightLabel : String
  rightValue : String
  deriving Repr, DecidableEq

/-- `HARDCODED_SPEC_DATA` of `key-spec.js`: the bundled six-row default
dataset. -/
def HARDCODED_SPEC_DATA : List Spec :=
  [{ leftLabel := "PICTURE (DISPLAY) - Display Type",
     leftValue := "4K OLED",
     rightLabel := "PICTURE (DISPLAY) - Refresh Rate",
     rightValue := "120Hz Native (VRR 144Hz)" },
   { leftLabel := "PICTURE (DISPLAY) - Wide Colour Gamut",
     leftValue := "OLED Colour",
     rightLabel := "PICTURE (PROCESSING) - Picture Processor",
     rightValue := "a9 AI Processor 4K Gen8" },
   { leftLabel := "PICTURE (PROCESSING) - HDR (High Dynamic Range)",
     leftValue := "Dolby Vision / HDR10 / HLG",
     rightLabel := "GAMING - G-Sync Compatible (Nvidia)",
     rightValue := "Yes" },
   { leftLabel := "GAMING - FreeSync Compatible (AMD)",
     leftValue := "Yes",
     rightLabel := "AUDIO - Audio Output",
     rightValue := "40W" },
   { leftLabel := "AUDIO - Speaker System",
     leftValue := "2.2 channel",
     rightLabel := "AUDIO - Dolby Atmos",
     rightValue := "Yes" },
   { leftLabel := "DIMENSIONS AND WEIGHTS - TV Dimensions without Stand (WxHxD)",
     leftValue := "1441 x 826 x 45.1",
     rightLabel := "DIMENSIONS AND WEIGHTS - TV Weight without Stand",
     rightValue := "16.6" }]

/-- The possible outcomes of the `fetch`-and-parse in `loadDataFromAPI`:
the fetch (or `response.json()`) rejects; the response has a non-2xx status
(`!response.ok`); the JSON parses but is not an array; or it is an array. -/
inductive FetchOutcome
  | rejected
  | respNotOk (status : Nat)
  | respOkNonArray
  | respOkArray (data : List Spec)
  deriving Repr, DecidableEq

/-- `loadDataFromAPI` of `key-spec.js`: a thrown error (rejection or non-ok
status) is caught and yields `null` (`none`); a non-array body yields `[]`. -/
def loadDataFromAPI : FetchOutcome → Option (List Spec)
  | FetchOutcome.rejected => none
  | FetchOutcome.respNotOk _ => none
  | FetchOutcome.respOkNonArray => some []
  | FetchOutcome.respOkArray d => some d

/-- The spec-selection logic of `decorate` in `key-spec.js`: start from the
hardcoded data; when a `data-api-url` is present (`outcome ≠ none`), use the
API data only if it is a nonempty array. -/
def chooseSpecs (outcome : Option FetchOutcome) : List Spec :=
  match outcome with
  | none => HARDCODED_SPEC_DATA
  | some o =>
    match loadDataFromAPI o with
    | some apiData => if apiData.length > 0 then apiData else HARDCODED_SPEC_DATA
    | none => HARDCODED_SPEC_DATA

/-- `createSpecRowHTML` of `key-spec.js`. -/
def createSpecRowHTML (spec : Spec) (index total : Nat) : String :=
  let hasSeparator := index < total - 1 ∧ (index = 0 ∨ index = 2 ∨ index = 4)
  "<div class=\"key-spec-row\">"
    ++ "<div class=\"key-spec-column\">"
    ++ (if spec.leftLabel ≠ "" ∧ spec.leftValue ≠ "" then
          "<div class=\"key-spec-item\">"
            ++ "<div class=\"key-spec-label\">" ++ spec.leftLabel ++ "</div>"
            ++ "<div class=\"key-spec-value\">" ++ spec.leftValue ++ "</div>"
            ++ "</div>"
        else "")
    ++ "</div>"
    ++ "<div class=\"key-spec-column\">"
    ++ (if spec.rightLabel ≠ "" ∧ spec.rightValue ≠ "" then
          "<div class=\"key-spec-item\">"
            ++ "<div class=\"key-spec-label\">" ++ spec.rightLabel ++ "</div>"
            ++ "<div class=\"key-spec-value\">" ++ spec.rightValue ++ "</div>"
            ++ "</div>"
        else "")
    ++ "</div>"
    ++ "</div>"
    ++ (if hasSeparator then "<div class=\"key-spec-separator\"></div>" else "")

/-- `createKeySpecHTML` of `key-spec.js`. -/
def createKeySpecHTML (specs : List Spec) : String :=
  if specs = [] then "<div class=\"key-spec-empty\">No specifications available</div>"
  else
    "<div class=\"key-spec-container\">"
      ++ "<div class=\"key-spec-header\">"
      ++ "<h2 class=\"key-spec-title\">Key Spec</h2>"
      ++ "<div class=\"key-spec-title-underline\"></div>"
      ++ "</div>"
      ++ "<div class=\"key-spec-content\">"
      ++ (specs.enum.foldl (fun acc p => acc ++ createSpecRowHTML p.2 p.1 specs.length) "")
      ++ "</div>"
      ++ "</div>"

/-- The markup `decorate` inserts for a given fetch outcome. -/
def decorateHTML (outcome : Option FetchOutcome) : String :=
  createKeySpecHTML (chooseSpecs outcome)

end KeySpec

namespace ProductDetails

/-- `getSkuFromUrl` of `product-details.js`: split the pathname on `/`,
drop empty segments, uppercase the last segment (`''` when there is none). -/
def getSkuFromUrl (pathname : String) : String :=
  let segments := (jsSplitCh '/' pathname).filter (fun s => s ≠ "")
  let lastSegment :=
    match segments.getLast? with
    | some s => s
    | none => ""
  jsToUpper lastSegment

end ProductDetails

namespace Header

/-- `getSkuFromUrl` of `header.js`: prefer the segment following a
`products` segment when it exists (and is truthy), otherwise fall back to
the last segment. -/
def getSkuFromUrl (pathname : String) : String :=
  let segments := (jsSplitCh '/' pathname).filter (fun s => s ≠ "")
  let fallback := jsToUpper (match segments.getLast? with
    | some s => s
    | none => "")
  match segments.findIdx? (fun s => s = "products") with
  | some productsIndex =>
    match segments.get? (productsIndex + 1) with
    | some s => if s ≠ "" then jsToUpper s else fallback
    | none => fallback
  | none => fallback

end Header

namespace Award

/-- `Math.ceil(cards.length / cardsPerPage)` with `cardsPerPage = 4`. -/
def totalPagesFor (numCards : Nat) : Nat :=
  (numCards + 3) / 4

/-- The observable pagination state of the award carousel: the `currentPage`
variable, the track's `transform` style, and the `1 / N` page indicator text
written by `updatePagination`. -/
structure State where
  currentPage : Int
  trackTransform : String
  paginationText : String
  deriving Repr, DecidableEq

/-- The page-indicator text of `updatePagination`. -/
def paginationTextFor (currentPage totalPages : Int) : String :=
  toString (currentPage + 1) ++ " / " ++ toString totalPages

/-- The track transform set by `slideTo`
(`translateX(-${currentPage * 100}%)`). -/
def transformFor (page : Int) : String :=
  "translateX(-" ++ toString (page * 100) ++ "%)"

/-- `slideTo` of the award block: out-of-range requests return before
touching any state. -/
def slideTo (totalPages page : Int) (st : State) : State :=
  if page < 0 ∨ totalPages ≤ page then st
  else
    { currentPage := page,
      trackTransform := transformFor page,
      paginationText := paginationTextFor page totalPages }

/-- A pagination activation: the prev or the next button. -/
inductive PagOp
  | prevPage
  | nextPage
  deriving Repr, DecidableEq

/-- The click handlers wired by `updatePagination`:
`slideTo(currentPage - 1)` and `slideTo(currentPage + 1)`. -/
def applyOp (totalPages : Int) (st : State) : PagOp → State
  | PagOp.prevPage => slideTo totalPages (st.currentPage - 1) st
  | PagOp.nextPage => slideTo totalPages (st.currentPage + 1) st

/-- The initial state: `currentPage = 0`, no transform set yet, indicator
rendered by the initial `updatePagination()` call. -/
def initState (totalPages : Int) : State :=
  { currentPage := 0, trackTransform := "",
    paginationText := paginationTextFor 0 totalPages }

/-- Run a sequence of prev/next activations from the initial state. -/
def run (totalPages : Int) (ops : List PagOp) : State :=
  ops.foldl (applyOp totalPages) (initState totalPages)

end Award

/-!  Claim-side definitions: iteration of a transition function, content
predicates, the failure predicate on fetch outcomes, the URL-contract
phrasing of the SKU rules, and comma-joining (the authoring-side inverse of
the comma split). -/

/-- Apply a transition function `k` times. -/
def stepN (f : Nat → Nat) : Nat → Nat → Nat
  | 0, c => c
  | k + 1, c => f (stepN f k c)

/-- Does a carousel slide carry any non-empty field? -/
def Carousel.slideHasContent (s : Carousel.Slide) : Bool :=
  s.headline ≠ "" || s.bodyCopy ≠ "" || s.image ≠ "" || s.altTag ≠ ""

/-- The failing fetch outcomes named by the spec: rejection, non-2xx status,
non-array JSON, or an empty array. -/
def KeySpec.isFailing : KeySpec.FetchOutcome → Bool
  | KeySpec.FetchOutcome.rejected => true
  | KeySpec.FetchOutcome.respNotOk _ => true
  | KeySpec.FetchOutcome.respOkNonArray => true
  | KeySpec.FetchOutcome.respOkArray d => d.isEmpty

/-- The URL contract as the spec words it: the uppercase of the last
non-empty path segment (empty when there is none). -/
def skuClaimLastSegment (pathname : String) : String :=
  jsToUpper ((((jsSplitCh '/' pathname).filter (fun s => s ≠ ""))).getLast?.getD "")

/-- The URL contract as the spec words it: the uppercase of the segment
following a `products` path token when one is present, otherwise the last
non-empty segment. -/
def skuClaimProductsSegment (pathname : String) : String :=
  let segments := (jsSplitCh '/' pathname).filter (fun s => s ≠ "")
  match segments.findIdx? (fun s => s = "products") with
  | some i =>
    match segments.get? (i + 1) with
    | some s => jsToUpper s
    | none => skuClaimLastSegment pathname
  | none => skuClaimLastSegment pathname

/-- Join strings with commas: the authored form of a comma-separated
multi-value row. -/
def commaJoin : List String → String
  | [] => ""
  | [u] => u
  | u :: rest => u ++ "," ++ commaJoin rest

/-- Is the last character of the list a decimal digit? -/
def lastIsDigitL : List Char → Bool
  | [] => false
  | [c] => c.isDigit
  | _ :: c :: rest => lastIsDigitL (c :: rest)

end LgDemo

namespace LgDemo

/-!  Helper lemmas. -/

/-- Iterating `nextSlide` from slide `0` reaches slide `k % N` after `k`
steps. -/
theorem stepN_nextSlide (N k : Nat) :
    stepN (Carousel.nextSlide N) k 0 = k % N := by
  induction k with
  | zero => simp [stepN]
  | succ k ih => simp [stepN, ih, Carousel.nextSlide, Nat.mod_add_mod]

/-- The current page after `slideTo`: unchanged when out of range, the
requested page otherwise. -/
theorem slideTo_currentPage (T page : Int) (st : Award.State) :
    (Award.slideTo T page st).currentPage
      = if page < 0 ∨ T ≤ page then st.currentPage else page := by
  rw [Award.slideTo]
  split <;> rfl

/-- One prev/next activation keeps the award page inside `[0, T)`. -/
theorem award_inv_step (T : Int) (st : Award.State) (op : Award.PagOp)
    (h0 : 0 ≤ st.currentPage) (h1 : st.currentPage < T) :
    0 ≤ (Award.applyOp T st op).currentPage ∧ (Award.applyOp T st op).currentPage < T := by
  cases op <;> simp only [Award.applyOp, slideTo_currentPage] <;> split <;>
    first
      | exact ⟨h0, h1⟩
      | (next h => push_neg at h; omega)

/-- Any sequence of prev/next activations keeps the award page inside
`[0, T)`. -/
theorem award_inv_fold (T : Int) (ops : List Award.PagOp) :
    ∀ (st : Award.State), 0 ≤ st.currentPage → st.currentPage < T →
      0 ≤ (ops.foldl (Award.applyOp T) st).currentPage
        ∧ (ops.foldl (Award.applyOp T) st).currentPage < T := by
  induction ops with
  | nil => exact fun st h0 h1 => ⟨h0, h1⟩
  | cons op rest ih =>
    intro st h0 h1
    exact ih _ (award_inv_step T st op h0 h1).1 (award_inv_step T st op h0 h1).2

/-- C5: for every carousel with `N ≥ 1` slides, the slide index starts at
`0`, `nextSlide` and `prevSlide` wrap modulo `N` (they are mutually inverse
on `[0, N)`), and calling `nextSlide` `N` times from slide `0` returns to
slide `0` and to no earlier point. -/
theorem c5_carousel_next_wraps_after_n (N : Nat) (hN : 1 ≤ N) :
    Carousel.initialSlide = 0
    ∧ (∀ c, Carousel.nextSlide N c = (c + 1) % N)
    ∧ stepN (Carousel.nextSlide N) N 0 = 0
    ∧ (∀ k, 0 < k → k < N → stepN (Carousel.nextSlide N) k 0 ≠ 0)
    ∧ (∀ c, c < N →
        Carousel.prevSlide N (Carousel.nextSlide N c) = c
          ∧ Carousel.nextSlide N (Carousel.prevSlide N c) = c) := by
  refine ⟨rfl, fun c => rfl, ?_, ?_, ?_⟩
  · rw [stepN_nextSlide, Nat.mod_self]
  · intro k hk hkN
    rw [stepN_nextSlide, Nat.mod_eq_of_lt hkN]
    omega
  · intro c hc
    constructor
    · show (((c + 1) % N) + N - 1) % N = c
      rcases Nat.lt_or_ge (c + 1) N with h | h
      · rw [Nat.mod_eq_of_lt h, show c + 1 + N - 1 = c + N by omega,
          Nat.add_mod_right, Nat.mod_eq_of_lt hc]
      · rw [show c + 1 = N by omega, Nat.mod_self,
          show 0 + N - 1 = N - 1 by omega,
          Nat.mod_eq_of_lt (show N - 1 < N by omega)]
        omega
    · show (((c + N - 1) % N) + 1) % N = c
      rcases Nat.eq_zero_or_pos c with rfl | hpos
      · rw [show 0 + N - 1 = N - 1 by omega,
          Nat.mod_eq_of_lt (show N - 1 < N by omega),
          show N - 1 + 1 = N by omega, Nat.mod_self]
      · rw [show c + N - 1 = (c - 1) + N by omega, Nat.add_mod_right,
          Nat.mod_eq_of_lt (show c - 1 < N by omega),
          show c - 1 + 1 = c by omega, Nat.mod_eq_of_lt hc]

/-- Witness for C5 at `N = 3`. -/
theorem c5_witness : stepN (Carousel.nextSlide 3) 3 0 = 0 :=
  (c5_carousel_next_wraps_after_n 3 (by decide)).2.2.1

/-- C10: for every award carousel with at least one page, any sequence of
prev/next activations keeps the current page inside `[0, totalPages - 1]`;
a `slideTo` request for a page below `0` or at/above `totalPages` leaves the
whole state (current page, track transform, page indicator) unchanged; and a
nonempty card list always yields at least one page. -/
theorem c10_award_pagination_clamps (T : Int) (hT : 1 ≤ T) (ops : List Award.PagOp) :
    (0 ≤ (Award.run T ops).currentPage ∧ (Award.run T ops).currentPage < T)
    ∧ (∀ (st : Award.State) (page : Int),
        page < 0 ∨ T ≤ page → Award.slideTo T page st = st)
    ∧ (∀ n : Nat, 1 ≤ n → 1 ≤ Award.totalPagesFor n) := by
  refine ⟨?_, ?_, ?_⟩
  · exact award_inv_fold T ops (Award.initState T) (by simp [Award.initState]) (by simp [Award.initState]; omega)
  · intro st page h
    simp [Award.slideTo, h]
  · intro n hn
    simp [Award.totalPagesFor]
    omega

/-- Witness for C10 at `totalPages = 1`: a `slideTo 5` request is ignored. -/
theorem c10_witness :
    Award.slideTo 1 5 (Award.initState 1) = Award.initState 1 :=
  (c10_award_pagination_clamps 1 (by decide) []).2.1 (Award.initState 1) 5 (Or.inr (by decide))

/-- C7: every failing spec-block fetch (rejection, non-2xx status, non-array
JSON, empty array) makes the key-spec decorator render the bundled six-row
default dataset verbatim; no error value escapes. -/
theorem c7_key_spec_fallback (o : KeySpec.FetchOutcome)
    (h : KeySpec.isFailing o = true) :
    KeySpec.chooseSpecs (some o) = KeySpec.HARDCODED_SPEC_DATA
    ∧ KeySpec.HARDCODED_SPEC_DATA.length = 6
    ∧ KeySpec.decorateHTML (some o) = KeySpec.createKeySpecHTML KeySpec.HARDCODED_SPEC_DATA := by
  have hchoose : KeySpec.chooseSpecs (some o) = KeySpec.HARDCODED_SPEC_DATA := by
    cases o with
    | rejected => rfl
    | respNotOk status => rfl
    | respOkNonArray => rfl
    | respOkArray d =>
      have hd : d = [] := by
        simpa [KeySpec.isFailing, List.isEmpty_iff] using h
      subst hd
      rfl
  exact ⟨hchoose, rfl, by rw [KeySpec.decorateHTML, hchoose]⟩

/-- Witness for C7 at an HTTP 500 response. -/
theorem c7_witness :
    KeySpec.chooseSpecs (some (KeySpec.FetchOutcome.respNotOk 500))
      = KeySpec.HARDCODED_SPEC_DATA :=
  (c7_key_spec_fallback (KeySpec.FetchOutcome.respNotOk 500) rfl).1

/-- C9: for every pathname, the product-details SKU is the uppercase of the
last non-empty path segment, the header SKU is the uppercase of the segment
following a `products` token when one is present (falling back to the last
segment), and a path with no non-empty segments yields the empty string. -/
theorem c9_sku_from_url (pathname : String) :
    ProductDetails.getSkuFromUrl pathname = skuClaimLastSegment pathname
    ∧ Header.getSkuFromUrl pathname = skuClaimProductsSegment pathname
    ∧ ((jsSplitCh '/' pathname).filter (fun s => s ≠ "") = [] →
        ProductDetails.getSkuFromUrl pathname = "" ∧ Header.getSkuFromUrl pathname = "") := by
  refine ⟨?_, ?_, ?_⟩
  · rw [ProductDetails.getSkuFromUrl, skuClaimLastSegment]
    cases ((jsSplitCh '/' pathname).filter (fun s => s ≠ "")).getLast? <;> rfl
  · rw [Header.getSkuFromUrl, skuClaimProductsSegment]
    cases hidx : ((jsSplitCh '/' pathname).filter (fun s => s ≠ "")).findIdx? (fun s => s = "products") with
    | none =>
      simp only
      rw [skuClaimLastSegment]
      cases ((jsSplitCh '/' pathname).filter (fun s => s ≠ "")).getLast? <;> rfl
    | some i =>
      simp only
      cases hget : ((jsSplitCh '/' pathname).filter (fun s => s ≠ "")).get? (i + 1) with
      | none =>
        simp only
        rw [skuClaimLastSegment]
        cases ((jsSplitCh '/' pathname).filter (fun s => s ≠ "")).getLast? <;> rfl
      | some s =>
        have hmem : s ∈ (jsSplitCh '/' pathname).filter (fun s => s ≠ "") :=
          List.get?_mem hget
        have hs : s ≠ "" := by
          have := (List.mem_filter.mp hmem).2
          exact of_decide_eq_true this
        simp [hs]
  · intro hempty
    constructor
    · rw [ProductDetails.getSkuFromUrl, hempty]
      rfl
    · rw [Header.getSkuFromUrl, hempty]
      rfl

/-- Witness for C9 at the root path `/`, which has no non-empty segment. -/
theorem c9_witness :
    ProductDetails.getSkuFromUrl "/" = "" ∧ Header.getSkuFromUrl "/" = "" :=
  (c9_sku_from_url "/").2.2 (by decide)

/-- C6 counterexample: a `Text Width` row with the unrecognized value
`banana` makes hero-image's parser resolve the axis to `normal`, which is
not the hardcoded default `narrow` — so an unrecognized value does not
always fall back to the hardcoded default. -/
theorem c6_counterexample :
    (Hero.parseDocumentRows [⟨"Text Width", "banana", "banana"⟩]).1.textWidth = "normal"
    ∧ Hero.defaultStyles.textWidth = "narrow"
    ∧ ("normal" : String) ≠ "narrow" := by
  refine ⟨rfl, rfl, by decide⟩

/-- C6 (amended): a StyleConfig built from an empty row set equals the
hardcoded defaults on every axis (carousel and hero-image); an unrecognized
value resolves to a fixed per-axis fallback — `normal` for hero-image's
Text Width, leaving every other axis at its default — and the class builders
always emit a class for the alignment/text-width axes whatever the resolved
value is, so an axis is never dropped for being missing or unrecognized. -/
theorem c6_style_defaults :
    Carousel.parseDocumentRows [] = Except.ok (Carousel.defaultStyles, [])
    ∧ Hero.parseDocumentRows [] = (Hero.defaultStyles, Hero.emptyContent)
    ∧ (Hero.parseDocumentRows [⟨"Text Width", "banana", "banana"⟩]).1
        = { Hero.defaultStyles with textWidth := "normal" }
    ∧ (∀ st : Carousel.Styles, "carousel--align-" ++ st.align ∈ Carousel.classTokens st)
    ∧ (∀ st : Hero.Styles, "hero-image--text-width-" ++ st.textWidth ∈ Hero.classTokens st) := by
  refine ⟨rfl, rfl, rfl, ?_, ?_⟩
  · intro st
    simp [Carousel.classTokens]
  · intro st
    simp [Hero.classTokens]

/-- C3 counterexample: the single row `Headline #2` makes carousel's parser
materialize slide index `0` with every field empty (the padding loop is not
a fixed-size pre-allocation: the array starts empty and grows on demand), so
an index can be materialized with no non-empty field. -/
theorem c3_counterexample :
    Carousel.parseDocumentRows [⟨"Headline #2", "X", "X"⟩]
      = Except.ok (Carousel.defaultStyles,
          [{ headline := "", bodyCopy := "", image := "", altTag := "" },
           { headline := "X", bodyCopy := "", image := "", altTag := "" }])
    ∧ Carousel.slideHasContent
        { headline := "", bodyCopy := "", image := "", altTag := "" } = false := by
  exact ⟨rfl, rfl⟩

/-- C3 (amended): image-cta-overlay only keeps cards with a non-empty field
(its fixed pre-allocated three-card array aside), while carousel pads with
empty slides below the highest referenced index; end-to-end, the rows
`Headline #1 = A`, `Body Copy #1 = B`, `Image #1 = http://x/1.png` yield in
both parsers exactly one populated card with headline `A`, body `B`, image
`http://x/1.png`, and no additional empty cards. -/
theorem c3_single_card_end_to_end :
    Carousel.parseDocumentRows
        [⟨"Headline #1", "A", "A"⟩, ⟨"Body Copy #1", "B", "B"⟩,
         ⟨"Image #1", "http://x/1.png", "http://x/1.png"⟩]
      = Except.ok (Carousel.defaultStyles,
          [{ headline := "A", bodyCopy := "B", image := "http://x/1.png", altTag := "" }])
    ∧ Ico.parseDocumentRows
        [⟨"Headline #1", "A", "A"⟩, ⟨"Body Copy #1", "B", "B"⟩,
         ⟨"Image #1", "http://x/1.png", "http://x/1.png"⟩]
      = (Ico.defaultStyles,
          [{ image := "http://x/1.png", video := "", headline := "A", bodyCopy := "B",
             altTag := "", ctaUrl := "", ctaText := "" }]) := by
  exact ⟨by with_unfolding_all rfl, by with_unfolding_all rfl⟩

/-- Appending the empty string on the right is the identity. -/
theorem str_append_empty (s : String) : s ++ "" = s := by
  cases s with
  | mk l =>
    show String.mk (l ++ []) = String.mk l
    rw [List.append_nil]

/-- C8 counterexample: for a slide whose only content is an image, carousel's
synthesizer emits the empty container `<div class="carousel-slide-content">`
`</div>` inside the output markup — so the synthesizer does emit empty
container elements. -/
theorem c8_counterexample :
    containsSub
        (Carousel.createSlideHTML
          { headline := "", bodyCopy := "", image := "http://x/1.png", altTag := "" } 0 true)
        "<div class=\"carousel-slide-content\"></div>" = true := by
  with_unfolding_all rfl

/-- C8 (amended): each synthesizer omits every optional sub-element
(headline, body, eyebrow, CTA, media) whose backing field is empty, but the
fixed wrapper containers (carousel's slide-content, hero-image's content,
image-cta-overlay's media and content) are emitted unconditionally and may
therefore be empty. -/
theorem c8_optional_elements_omitted :
    (∀ (s : Carousel.Slide) (index : Nat) (isActive : Bool),
      s.headline = "" → s.bodyCopy = "" → s.image = "" →
        Carousel.createSlideHTML s index isActive
          = "<div class=\"carousel-slide "
              ++ (if isActive then "carousel-slide--active" else "")
              ++ "\" data-slide-index=\"" ++ toString index ++ "\">"
              ++ "<div class=\"carousel-slide-content\">" ++ "</div>" ++ "</div>")
    ∧ (∀ (content : Hero.Content) (styles : Hero.Styles),
        content.eyebrow = "" → content.headline = "" → content.bodyCopy = "" →
        content.cta = "" → content.heroImageDesktop = "" →
          Hero.createHeroImageHTML content styles
            = "<div class=\"hero-image-inner\">"
                ++ "<div class=\"hero-image-content\">" ++ "</div>" ++ "</div>")
    ∧ (∀ (card : Ico.Card) (index : Nat),
        card.image = "" → card.video = "" → card.headline = "" →
        card.bodyCopy = "" → card.ctaUrl = "" →
          Ico.createCardHTML card index
            = "<div class=\"image-cta-overlay-card\" data-card-index=\""
                ++ toString index ++ "\">"
                ++ "<div class=\"image-cta-overlay-media\">" ++ "</div>"
                ++ "<div class=\"image-cta-overlay-content\">" ++ "</div>" ++ "</div>") := by
  refine ⟨?_, ?_, ?_⟩
  · intro s index isActive h1 h2 h3
    simp [Carousel.createSlideHTML, h1, h2, h3, str_append_empty]
  · intro content styles h1 h2 h3 h4 h5
    simp [Hero.createHeroImageHTML, h1, h2, h3, h4, h5, str_append_empty]
  · intro card index h1 h2 h3 h4 h5
    simp [Ico.createCardHTML, h1, h2, h3, h4, h5, str_append_empty]

/-- `takeWhile` over a satisfying block stops exactly at the first failing
element. -/
theorem takeWhile_append_head_false (p : Char → Bool) :
    ∀ (l : List Char) (d : Char) (t : List Char),
      (∀ c ∈ l, p c = true) → p d = false →
        (l ++ d :: t).takeWhile p = l := by
  intro l
  induction l with
  | nil =>
    intro d t _ hd
    simp [List.takeWhile_cons, hd]
  | cons c cs ih =>
    intro d t hall hd
    rw [List.cons_append, List.takeWhile_cons, if_pos (hall c (by simp)),
      ih d t (fun x hx => hall x (by simp [hx])) hd]

/-- Scanning an empty list matches nothing. -/
theorem firstMatch_nil (f : List Char → Option String) : firstMatch f [] = none := rfl

/-- String append concatenates the underlying character lists. -/
theorem str_data_append (a b : String) : (a ++ b).data = a.data ++ b.data := by
  cases a with
  | mk la =>
    cases b with
    | mk lb => rfl

/-- Scanning skips a position where the anchored attempt fails. -/
theorem firstMatch_cons_none (f : List Char → Option String) (c : Char)
    (rest : List Char) (h : f (c :: rest) = none) :
    firstMatch f (c :: rest) = firstMatch f rest := by
  simp [firstMatch, h]

/-- Scanning stops at a position where the anchored attempt succeeds. -/
theorem firstMatch_cons_some (f : List Char → Option String) (c : Char)
    (rest : List Char) (u : String) (h : f (c :: rest) = some u) :
    firstMatch f (c :: rest) = some u := by
  simp [firstMatch, h]

/-- A successful scan succeeds at some start position. -/
theorem firstMatch_exists (f : List Char → Option String) :
    ∀ (l : List Char) (u : String), firstMatch f l = some u →
      ∃ i, f (l.drop i) = some u := by
  intro l
  induction l with
  | nil =>
    intro u h
    cases h
  | cons c rest ih =>
    intro u h
    simp only [firstMatch] at h
    cases hf : f (c :: rest) with
    | some v =>
      rw [hf] at h
      cases h
      exact ⟨0, by rw [List.drop_zero]; exact hf⟩
    | none =>
      rw [hf] at h
      obtain ⟨i, hi⟩ := ih u h
      exact ⟨i + 1, by rw [List.drop_succ_cons]; exact hi⟩

/-- A pattern that is a prefix of some suffix is a contiguous sublist. -/
theorem listInfix_of_drop_starts (pat : List Char) :
    ∀ (l : List Char) (i : Nat), pat.isPrefixOf (l.drop i) = true →
      listInfix pat l = true := by
  intro l
  induction l with
  | nil =>
    intro i h
    rw [List.drop_nil] at h
    cases pat with
    | nil => rfl
    | cons c cs => cases h
  | cons c rest ih =>
    intro i h
    cases i with
    | zero =>
      rw [List.drop_zero] at h
      rw [listInfix, h, Bool.true_or]
    | succ j =>
      rw [List.drop_succ_cons] at h
      rw [listInfix, ih j h, Bool.or_true]

/-- A successful `href="` attempt starts with the literal. -/
theorem tryHrefDq_some_starts (s : List Char) (u : String)
    (h : tryHrefDq s = some u) : "href=\"".data.isPrefixOf s = true := by
  by_cases hp : "href=\"".data.isPrefixOf s = true
  · exact hp
  · rw [tryHrefDq, if_neg hp] at h
    cases h

/-- A successful `src="` attempt starts with the literal. -/
theorem trySrcDq_some_starts (s : List Char) (u : String)
    (h : trySrcDq s = some u) : "src=\"".data.isPrefixOf s = true := by
  by_cases hp : "src=\"".data.isPrefixOf s = true
  · exact hp
  · rw [trySrcDq, if_neg hp] at h
    cases h

/-- When the regex finds an `href` capture, the html is nonempty and the
`includes` guard of the source holds. -/
theorem findHrefDq_some_facts (html : String) (u : String)
    (h : findHrefDq html = some u) :
    html ≠ "" ∧ containsSub html "href=\"" = true := by
  obtain ⟨i, hi⟩ := firstMatch_exists tryHrefDq html.data u h
  refine ⟨?_, listInfix_of_drop_starts _ _ i (tryHrefDq_some_starts _ _ hi)⟩
  intro he
  rw [he] at h
  rw [show findHrefDq "" = none from rfl] at h
  cases h

/-- When the regex finds a `src` capture, the html is nonempty and the
`includes` guard of the source holds. -/
theorem findSrcDq_some_facts (html : String) (u : String)
    (h : findSrcDq html = some u) :
    html ≠ "" ∧ containsSub html "src=\"" = true := by
  obtain ⟨i, hi⟩ := firstMatch_exists trySrcDq html.data u h
  refine ⟨?_, listInfix_of_drop_starts _ _ i (trySrcDq_some_starts _ _ hi)⟩
  intro he
  rw [he] at h
  rw [show findSrcDq "" = none from rfl] at h
  cases h

/-- An `href="` attempt at a position not starting with `h` fails. -/
theorem tryHrefDq_none_of_head (c : Char) (rest : List Char) (hc : c ≠ 'h') :
    tryHrefDq (c :: rest) = none := by
  rw [tryHrefDq, if_neg]
  intro hp
  rw [show "href=\"".data = ['h', 'r', 'e', 'f', '=', '"'] from rfl,
    List.isPrefixOf_iff_prefix, List.cons_prefix_cons] at hp
  exact hc hp.1.symm

/-- An `href="` attempt right at the literal, with a quote-free nonempty
capture before the closing quote, succeeds with that capture. -/
theorem tryHrefDq_at_match (L tail : List Char) (hne : L ≠ [])
    (hq : ∀ c ∈ L, c ≠ '"') :
    tryHrefDq ('h' :: 'r' :: 'e' :: 'f' :: '=' :: '"' :: (L ++ '"' :: tail))
      = some (String.mk L) := by
  have hpre : "href=\"".data.isPrefixOf
      ('h' :: 'r' :: 'e' :: 'f' :: '=' :: '"' :: (L ++ '"' :: tail)) = true := by
    rw [show "href=\"".data = ['h', 'r', 'e', 'f', '=', '"'] from rfl,
      List.isPrefixOf_iff_prefix]
    simp [List.cons_prefix_cons]
  simp only [tryHrefDq, hpre, if_true,
    show ('h' :: 'r' :: 'e' :: 'f' :: '=' :: '"' :: (L ++ '"' :: tail)).drop 6
      = L ++ '"' :: tail from rfl]
  rw [takeWhile_append_head_false _ L '"' tail
    (fun c hc => decide_eq_true (hq c hc)) (by decide)]
  rw [if_pos ⟨hne, by simp⟩]

/-- The carousel/image-cta-overlay extractor returns the first `href`
capture whenever there is one. -/
theorem extractImageUrl_href (text html : String) (u : String)
    (hm : findHrefDq html = some u) : extractImageUrl text html = u := by
  obtain ⟨hne, hcontains⟩ := findHrefDq_some_facts html u hm
  simp only [extractImageUrl]
  rw [if_pos ⟨hne, hcontains⟩, hm]

/-- When there is no `href="` in the html, the extractor returns the first
`src` capture whenever there is one. -/
theorem extractImageUrl_src (text html : String) (u : String)
    (hcf : containsSub html "href=\"" = false)
    (hm : findSrcDq html = some u) : extractImageUrl text html = u := by
  obtain ⟨hne, hcontains⟩ := findSrcDq_some_facts html u hm
  simp only [extractImageUrl]
  rw [if_neg (fun h => by rw [hcf] at h; cases h.2),
    if_pos ⟨hne, hcontains⟩, hm]

/-- Rebuilding a string from its characters is the identity. -/
theorem str_mk_data (s : String) : String.mk s.data = s := by
  cases s with
  | mk l => rfl

/-- A string with a nonempty character list is not the empty string. -/
theorem str_ne_empty_of_data (s : String) (h : s.data ≠ []) : s ≠ "" := by
  intro he
  rw [he] at h
  exact h rfl

/-- `dropWhile` is the identity when no element satisfies the predicate. -/
theorem dropWhile_eq_self_of_all_false (p : Char → Bool) :
    ∀ (l : List Char), (∀ c ∈ l, p c = false) → l.dropWhile p = l := by
  intro l
  induction l with
  | nil => intro _; rfl
  | cons c rest _ =>
    intro h
    rw [List.dropWhile_cons, h c (by simp)]
    simp

/-- JS `trim` is the identity on a whitespace-free string. -/
theorem jsTrim_eq_self (s : String) (h : ∀ c ∈ s.data, c.isWhitespace = false) :
    jsTrim s = s := by
  rw [jsTrim, dropWhile_eq_self_of_all_false _ _ h,
    dropWhile_eq_self_of_all_false _ _ (fun c hc => h c (List.mem_reverse.mp hc)),
    List.reverse_reverse, str_mk_data]

/-- Splitting a separator-free block yields one piece. -/
theorem splitChAux_no_sep (sep : Char) :
    ∀ (l accRev : List Char), (∀ c ∈ l, c ≠ sep) →
      splitChAux sep l accRev = [String.mk (accRev.reverse ++ l)] := by
  intro l
  induction l with
  | nil =>
    intro acc _
    rw [splitChAux, List.append_nil]
  | cons c rest ih =>
    intro acc h
    rw [splitChAux, if_neg (h c (by simp)), ih (c :: acc) (fun x hx => h x (by simp [hx]))]
    simp

/-- Splitting a separator-free block followed by a separator peels off that
block as the first piece. -/
theorem splitChAux_append_sep (sep : Char) :
    ∀ (l rest accRev : List Char), (∀ c ∈ l, c ≠ sep) →
      splitChAux sep (l ++ sep :: rest) accRev
        = String.mk (accRev.reverse ++ l) :: splitChAux sep rest [] := by
  intro l
  induction l with
  | nil =>
    intro rest acc _
    rw [List.nil_append, splitChAux, if_pos rfl, List.append_nil]
  | cons c rest' ih =>
    intro rest acc h
    rw [List.cons_append, splitChAux, if_neg (h c (by simp)),
      ih rest (c :: acc) (fun x hx => h x (by simp [hx]))]
    simp

/-- Splitting a comma-join recovers the pieces (each piece comma-free, at
least one piece). -/
theorem jsSplitCh_commaJoin :
    ∀ (urls : List String), urls ≠ [] →
      (∀ u ∈ urls, ∀ c ∈ u.data, c ≠ ',') →
      jsSplitCh ',' (commaJoin urls) = urls
  | [], h, _ => absurd rfl h
  | [u], _, hc => by
    rw [commaJoin, jsSplitCh, splitChAux_no_sep ',' u.data []
      (fun c hcm => hc u (by simp) c hcm)]
    simp [str_mk_data]
  | u :: v :: rest, _, hc => by
    rw [show commaJoin (u :: v :: rest) = u ++ "," ++ commaJoin (v :: rest) from rfl,
      jsSplitCh,
      show (u ++ "," ++ commaJoin (v :: rest)).data
        = u.data ++ ',' :: (commaJoin (v :: rest)).data by
          simp [str_data_append],
      splitChAux_append_sep ',' u.data ((commaJoin (v :: rest)).data) []
        (fun c hcm => hc u (by simp) c hcm)]
    rw [List.reverse_nil, List.nil_append, str_mk_data]
    have := jsSplitCh_commaJoin (v :: rest) (by simp)
      (fun x hx c hcm => hc x (by simp [hx]) c hcm)
    rw [jsSplitCh] at this
    rw [this]

/-- A comma-join of whitespace-free strings is whitespace-free. -/
theorem commaJoin_wsfree :
    ∀ (urls : List String),
      (∀ u ∈ urls, ∀ c ∈ u.data, c.isWhitespace = false) →
      ∀ c ∈ (commaJoin urls).data, c.isWhitespace = false
  | [], _, c, hc => absurd hc (by simp [commaJoin])
  | [u], h, c, hc => h u (by simp) c hc
  | u :: v :: rest, h, c, hc => by
    rw [show commaJoin (u :: v :: rest) = u ++ "," ++ commaJoin (v :: rest) from rfl] at hc
    simp only [str_data_append] at hc
    rcases (List.mem_append.mp hc) with h1 | h2
    · rcases (List.mem_append.mp h1) with h3 | h4
      · exact h u (by simp) c h3
      · have : c = ',' := by simpa using h4
        subst this
        decide
    · exact commaJoin_wsfree (v :: rest) (fun x hx d hd => h x (by simp [hx]) d hd) c h2

/-- The carousel image-row fold appends every URL-shaped, already-trimmed
entry to the collected image list. -/
theorem carousel_image_fold :
    ∀ (l : List String) (acc : List String),
      (∀ u ∈ l, u ≠ "" ∧ (u.startsWith "http" ∨ u.startsWith "/") ∧ jsTrim u = u) →
      l.foldl (fun acc url =>
        if extractImageUrl url "" ≠ "" then acc ++ [extractImageUrl url ""] else acc) acc
        = acc ++ l := by
  intro l
  induction l with
  | nil => intro acc _; rw [List.foldl_nil, List.append_nil]
  | cons u rest ih =>
    intro acc h
    obtain ⟨hne, hstart, htrim⟩ := h u (by simp)
    have hex : extractImageUrl u "" = u := by
      show (if u ≠ "" ∧ (u.startsWith "http" ∨ u.startsWith "/")
        then jsTrim u else "") = u
      rw [if_pos ⟨hne, hstart⟩, htrim]
    rw [List.foldl_cons, hex, if_pos hne, ih (acc ++ [u]) (fun x hx => h x (by simp [hx]))]
    simp

/-- Mapping a function that fixes every element is the identity. -/
theorem map_eq_self_of_eq {α : Type} (f : α → α) :
    ∀ (l : List α), (∀ a ∈ l, f a = a) → l.map f = l := by
  intro l
  induction l with
  | nil => intro _; rfl
  | cons a rest ih =>
    intro h
    rw [List.map_cons, h a (by simp), ih (fun x hx => h x (by simp [hx]))]

/-- Processing the `Images` row of a carousel block collects exactly the
authored comma-separated URLs, in order, into the image list. -/
theorem carousel_images_row (urls : List String) (hne : urls ≠ [])
    (hu : ∀ u ∈ urls, u.data ≠ [] ∧ (∀ c ∈ u.data, c ≠ ',' ∧ c.isWhitespace = false)
        ∧ (u.startsWith "http" ∨ u.startsWith "/"))
    (hhtml : containsSub (commaJoin urls) "<a" = false
        ∧ containsSub (commaJoin urls) "<img" = false) :
    Carousel.processRow { styles := Carousel.defaultStyles, slides := [], images := [] }
        ⟨"Images", commaJoin urls, commaJoin urls⟩
      = Except.ok { styles := Carousel.defaultStyles, slides := [], images := urls } := by
  have hws : ∀ c ∈ (commaJoin urls).data, c.isWhitespace = false :=
    commaJoin_wsfree urls (fun u hu2 c hc => ((hu u hu2).2.1 c hc).2)
  have hV : jsTrim (commaJoin urls) = commaJoin urls := jsTrim_eq_self _ hws
  have hsplit : ((jsSplitCh ',' (commaJoin urls)).map jsTrim).filter (fun s => s ≠ "")
      = urls := by
    rw [jsSplitCh_commaJoin urls hne (fun u hu2 c hc => ((hu u hu2).2.1 c hc).1),
      map_eq_self_of_eq jsTrim urls
        (fun u hu2 => jsTrim_eq_self u (fun c hc => ((hu u hu2).2.1 c hc).2))]
    exact List.filter_eq_self.mpr
      (fun u hu2 => decide_eq_true (str_ne_empty_of_data u (hu u hu2).1))
  have hstyle : Carousel.styleStep
      { styles := Carousel.defaultStyles, slides := [], images := [] }
      "images" (jsToLower (commaJoin urls)) (commaJoin urls) (commaJoin urls)
      = { styles := Carousel.defaultStyles, slides := [], images := urls } := by
    rw [Carousel.styleStep,
      if_neg (by decide), if_neg (by decide), if_neg (by decide), if_neg (by decide),
      if_neg (by decide), if_neg (by decide), if_neg (by decide), if_neg (by decide),
      if_neg (by decide), if_neg (by decide), if_pos (Or.inl rfl)]
    rw [hsplit]
    dsimp only
    rw [carousel_image_fold urls []
        (fun u hu2 => ⟨str_ne_empty_of_data u (hu u hu2).1, (hu u hu2).2.2,
          jsTrim_eq_self u (fun c hc => ((hu u hu2).2.1 c hc).2)⟩),
      List.nil_append]
    rw [if_neg]
    intro hor
    rcases hor with h1 | h2
    · rw [hhtml.1] at h1
      cases h1
    · rw [hhtml.2] at h2
      cases h2
  have hnum : Carousel.numberedStep
      { styles := Carousel.defaultStyles, slides := [], images := urls }
      "images" (commaJoin urls) (commaJoin urls)
      = Except.ok { styles := Carousel.defaultStyles, slides := [], images := urls } := by
    rw [Carousel.numberedStep,
      show lazyNumMatch ("images" : String).data = none from by with_unfolding_all rfl]
  rw [Carousel.processRow,
    show stripWS (jsToLower (jsTrim "Images")) = "images" from by with_unfolding_all rfl,
    hV, hstyle, hnum]

/-- A nonempty all-digit list ends in a digit. -/
theorem allDigits_last :
    ∀ (l : List Char), l ≠ [] → l.all Char.isDigit = true → lastIsDigitL l = true
  | [], h, _ => absurd rfl h
  | [c], _, ha => by simpa [lastIsDigitL, List.all_cons] using ha
  | c :: d :: rest, _, ha => by
    rw [lastIsDigitL]
    simp only [List.all_cons, Bool.and_eq_true] at ha
    exact allDigits_last (d :: rest) (by simp) (by simp [List.all_cons, ha.2.1, ha.2.2])

/-- A list matching `#?\d+` ends in a digit. -/
theorem matchRest_lastIsDigit (r ds : List Char) (h : matchRest r = some ds) :
    lastIsDigitL r = true := by
  cases r with
  | nil => cases h
  | cons c rest =>
    simp only [matchRest] at h
    by_cases hc : c = '#'
    · rw [if_pos hc] at h
      by_cases hr : rest ≠ [] ∧ rest.all Char.isDigit
      · subst hc
        cases rest with
        | nil => exact absurd rfl hr.1
        | cons d rest' =>
          rw [lastIsDigitL]
          exact allDigits_last (d :: rest') hr.1 hr.2
      · rw [if_neg hr] at h
        cases h
    · rw [if_neg hc] at h
      by_cases ha : (c :: rest).all Char.isDigit
      · exact allDigits_last (c :: rest) (by simp) ha
      · rw [if_neg ha] at h
        cases h

/-- A label accepted by the numbered-label regex ends in a digit. -/
theorem lazyNumAux_lastIsDigit :
    ∀ (l accRev : List Char) (p : String × Nat),
      lazyNumAux accRev l = some p → lastIsDigitL l = true := by
  intro l
  induction l with
  | nil => intro acc p h; cases h
  | cons c rest ih =>
    intro acc p h
    cases hm : matchRest rest with
    | some ds =>
      have hne : rest ≠ [] := by intro he; rw [he] at hm; cases hm
      cases rest with
      | nil => exact absurd rfl hne
      | cons d rest' =>
        rw [lastIsDigitL]
        exact matchRest_lastIsDigit (d :: rest') ds hm
    | none =>
      simp only [lazyNumAux, hm] at h
      have hrest := ih (c :: acc) p h
      cases rest with
      | nil => cases hrest
      | cons d rest' =>
        rw [lastIsDigitL]
        exact hrest

/-- A label accepted by the numbered-label regex ends in a digit. -/
theorem lazyNumMatch_lastIsDigit (l : List Char) (p : String × Nat)
    (h : lazyNumMatch l = some p) : lastIsDigitL l = true :=
  lazyNumAux_lastIsDigit l [] p h

/-- A label ending in a digit differs from every style-case label (none of
which ends in a digit), so the image-cta-overlay style switch leaves the
styles unchanged. -/
theorem ico_styleStep_of_digit (st : Ico.Styles) (label value : String)
    (hd : lastIsDigitL label.data = true) : Ico.styleStep st label value = st := by
  have ne : ∀ s : String, lastIsDigitL s.data = false → label ≠ s := by
    intro s hs he
    rw [he] at hd
    rw [hd] at hs
    cases hs
  have notOr : ∀ a b : String,
      lastIsDigitL a.data = false → lastIsDigitL b.data = false →
        ¬(label = a ∨ label = b) := by
    intro a b ha hb h
    exact h.elim (ne a ha) (ne b hb)
  rw [Ico.styleStep,
    if_neg (notOr _ _ (by decide) (by decide)),
    if_neg (notOr _ _ (by decide) (by decide)),
    if_neg (notOr _ _ (by decide) (by decide)),
    if_neg (ne _ (by decide)),
    if_neg (ne _ (by decide)),
    if_neg (notOr _ _ (by decide) (by decide)),
    if_neg (notOr _ _ (by decide) (by decide)),
    if_neg (notOr _ _ (by decide) (by decide)),
    if_neg (notOr _ _ (by decide) (by decide)),
    if_neg (notOr _ _ (by decide) (by decide))]

/-- One image-cta-overlay row never changes the number of cards. -/
theorem ico_processRow_length (st : Ico.Styles × List Ico.Card) (r : Row) :
    (Ico.processRow st r).2.length = st.2.length := by
  simp only [Ico.processRow]
  cases hm : lazyNumMatch (stripWS (jsToLower (jsTrim r.label))).data with
  | none => rfl
  | some q =>
    obtain ⟨nameRaw, n⟩ := q
    dsimp only
    split
    · simp [List.length_set]
    · rfl

/-- The image-cta-overlay row fold keeps the card count of its start
state. -/
theorem ico_fold_length (rows : List Row) (st : Ico.Styles × List Ico.Card) :
    (rows.foldl Ico.processRow st).2.length = st.2.length := by
  induction rows generalizing st with
  | nil => rfl
  | cons r rest ih => rw [List.foldl_cons, ih, ico_processRow_length]

/-- A row whose label carries an out-of-range index (`0`, which maps to card
`-1`, or beyond the three pre-allocated cards) leaves the image-cta-overlay
parser state untouched. -/
theorem ico_processRow_skip (st : Ico.Styles × List Ico.Card) (r : Row)
    (nameRaw : String) (n : Nat)
    (hm : lazyNumMatch (stripWS (jsToLower (jsTrim r.label))).data = some (nameRaw, n))
    (hn : n = 0 ∨ 4 ≤ n) (hlen : st.2.length = 3) :
    Ico.processRow st r = st := by
  have hd : lastIsDigitL (stripWS (jsToLower (jsTrim r.label))).data = true :=
    lazyNumMatch_lastIsDigit _ _ hm
  simp only [Ico.processRow, hm]
  rw [ico_styleStep_of_digit _ _ _ hd, hlen,
    if_neg (by rcases hn with rfl | hn <;> [omega; (push_cast; omega)] :
      ¬(0 ≤ (n : Int) - 1 ∧ (n : Int) - 1 < ((3 : Nat) : Int)))]

/-- C1: the spec says an out-of-range numbered index is ignored without
error.  `image-cta-overlay.js` does ignore it (its parse result is the one
with that row absent), but `carousel.js` throws a TypeError on index `0`
(`slides[-1].headline = v` dereferences `undefined`), so parsing does not
complete there. -/
theorem c1_out_of_range_numbered_index :
    Carousel.parseDocumentRows [⟨"Headline #0", "A", "A"⟩]
      = Except.error Carousel.JsError.typeError
    ∧ (∀ (rows1 rows2 : List Row) (r : Row) (nameRaw : String) (n : Nat),
        lazyNumMatch (stripWS (jsToLower (jsTrim r.label))).data = some (nameRaw, n) →
        n = 0 ∨ 4 ≤ n →
        Ico.parseDocumentRows (rows1 ++ r :: rows2)
          = Ico.parseDocumentRows (rows1 ++ rows2)) := by
  constructor
  · with_unfolding_all rfl
  · intro rows1 rows2 r nameRaw n hm hn
    have hlen : ((rows1.foldl Ico.processRow (Ico.defaultStyles, Ico.initialCards)).2).length = 3 :=
      ico_fold_length rows1 _
    have hfold :
        (rows1 ++ r :: rows2).foldl Ico.processRow (Ico.defaultStyles, Ico.initialCards)
          = (rows1 ++ rows2).foldl Ico.processRow (Ico.defaultStyles, Ico.initialCards) := by
      rw [List.foldl_append, List.foldl_append, List.foldl_cons,
        ico_processRow_skip _ r nameRaw n hm hn hlen]
    rw [Ico.parseDocumentRows, Ico.parseDocumentRows, hfold]

/-- Witness for C1: a `Headline #0` row is ignored by image-cta-overlay. -/
theorem c1_witness :
    Ico.parseDocumentRows [⟨"Headline #0", "A", "A"⟩] = Ico.parseDocumentRows [] :=
  c1_out_of_range_numbered_index.2 [] [] ⟨"Headline #0", "A", "A"⟩ "headline" 0
    (by with_unfolding_all rfl) (Or.inl rfl)

/-- C4: a row whose value lists `k` comma-separated image URLs (each
nonempty, comma-free, whitespace-free, starting with `http` or `/`, with no
anchor or `img` markup in the cell), with no numbered rows present, produces
exactly `k` slides, the `i`-th slide receiving the `i`-th URL in authored
order. -/
theorem c4_comma_separated_fan_out (urls : List String) (hne : urls ≠ [])
    (hu : ∀ u ∈ urls, u.data ≠ [] ∧ (∀ c ∈ u.data, c ≠ ',' ∧ c.isWhitespace = false)
        ∧ (u.startsWith "http" ∨ u.startsWith "/"))
    (hhtml : containsSub (commaJoin urls) "<a" = false
        ∧ containsSub (commaJoin urls) "<img" = false) :
    Carousel.parseDocumentRows [⟨"Images", commaJoin urls, commaJoin urls⟩]
      = Except.ok (Carousel.defaultStyles,
          urls.map (fun u => { Carousel.emptySlide with image := u }))
    ∧ (urls.map (fun u => { Carousel.emptySlide with image := u })).length = urls.length
    ∧ (∀ i : Nat,
        (urls.map (fun u => { Carousel.emptySlide with image := u })).get? i
          = (urls.get? i).map (fun u => { Carousel.emptySlide with image := u })) := by
  refine ⟨?_, by simp, fun i => by simp⟩
  have hfold : List.foldlM Carousel.processRow
      { styles := Carousel.defaultStyles, slides := [], images := [] }
      [(⟨"Images", commaJoin urls, commaJoin urls⟩ : Row)]
      = Except.ok { styles := Carousel.defaultStyles, slides := [], images := urls } := by
    simp [List.foldlM, carousel_images_row urls hne hu hhtml]
  simp only [Carousel.parseDocumentRows, hfold]
  simp [Carousel.assignImages, hne]

/-- Witness for C4 at two concrete URLs. -/
theorem c4_witness :
    Carousel.parseDocumentRows [⟨"Images", commaJoin ["http://a/1.png", "/b/2.png"],
        commaJoin ["http://a/1.png", "/b/2.png"]⟩]
      = Except.ok (Carousel.defaultStyles,
          [{ Carousel.emptySlide with image := "http://a/1.png" },
           { Carousel.emptySlide with image := "/b/2.png" }]) :=
  (c4_comma_separated_fan_out ["http://a/1.png", "/b/2.png"] (by decide)
    (by
      intro u hu2
      fin_cases hu2
      · exact ⟨by decide, by decide, Or.inl (by with_unfolding_all rfl)⟩
      · exact ⟨by decide, by decide, Or.inr (by with_unfolding_all rfl)⟩)
    ⟨by with_unfolding_all rfl, by with_unfolding_all rfl⟩).1

/-- C2 counterexample: hero-image's extractor falls back to the plain-text
form even when it does not look like a URL — `hello` starts with neither
`http` nor `/`, yet it is returned instead of being rejected. -/
theorem c2_counterexample :
    Hero.extractImageUrl "hello" "" = "hello"
    ∧ "hello".startsWith "http" = false
    ∧ "hello".startsWith "/" = false
    ∧ ("hello" : String) ≠ "" := by
  exact ⟨rfl, by with_unfolding_all rfl, by with_unfolding_all rfl, by decide⟩

/-- C2 (amended): all extractors check the HTML form for an anchor `href`
first, then for an `img` `src`; an image wrapped in a link therefore yields
the anchor's href, never the img's src.  The final plain-text fallback is
guarded by the looks-like-a-URL test (starts with `http` or `/`) in the
carousel/image-cta-overlay extractor only; hero-image's extractor returns
the plain text unconditionally. -/
theorem c2_url_extraction_order :
    (∀ (text html u : String),
      findHrefDq html = some u → extractImageUrl text html = u)
    ∧ (∀ (text html u : String),
        containsSub html "href=\"" = false → findSrcDq html = some u →
          extractImageUrl text html = u)
    ∧ (∀ text : String,
        extractImageUrl text ""
          = if text ≠ "" ∧ (text.startsWith "http" ∨ text.startsWith "/")
            then jsTrim text else "")
    ∧ (∀ text : String, Hero.extractImageUrl text "" = text)
    ∧ (∀ (text L S : String), L.data ≠ [] → (∀ c ∈ L.data, c ≠ '"') →
        extractImageUrl text ("<a href=\"" ++ L ++ "\"><img src=\"" ++ S ++ "\"></a>") = L)
    ∧ Hero.extractImageUrl "x" "<a href=\"/L\"><img src=\"/S\"></a>" = "/L" := by
  refine ⟨extractImageUrl_href, extractImageUrl_src, fun text => rfl, fun text => rfl,
    ?_, by with_unfolding_all rfl⟩
  intro text L S hne hq
  cases L with
  | mk ldata =>
    cases S with
    | mk sdata =>
      apply extractImageUrl_href
      have hdata : ("<a href=\"" ++ String.mk ldata ++ "\"><img src=\""
            ++ String.mk sdata ++ "\"></a>" : String).data
          = '<' :: 'a' :: ' ' :: ('h' :: 'r' :: 'e' :: 'f' :: '=' :: '"'
              :: (ldata ++ '"' :: ('>' :: '<' :: 'i' :: 'm' :: 'g' :: ' '
                :: 's' :: 'r' :: 'c' :: '=' :: '"'
                :: (sdata ++ ['"', '>', '<', '/', 'a', '>'])))) := by
        simp only [str_data_append, List.append_assoc]
        rfl
      rw [findHrefDq, hdata,
        firstMatch_cons_none _ _ _ (tryHrefDq_none_of_head '<' _ (by decide)),
        firstMatch_cons_none _ _ _ (tryHrefDq_none_of_head 'a' _ (by decide)),
        firstMatch_cons_none _ _ _ (tryHrefDq_none_of_head ' ' _ (by decide))]
      exact firstMatch_cons_some _ _ _ _ (tryHrefDq_at_match ldata _ hne hq)

/-- Witness for C2 (amended): a concrete image wrapped in a link yields the
anchor's href. -/
theorem c2_witness :
    extractImageUrl "x" ("<a href=\"" ++ "/L" ++ "\"><img src=\"" ++ "/S" ++ "\"></a>") = "/L" :=
  c2_url_extraction_order.2.2.2.2.1 "x" "/L" "/S" (by decide) (by decide)

/-- Witness for C8 (amended) at the all-empty slide. -/
theorem c8_witness :
    Carousel.createSlideHTML
        { headline := "", bodyCopy := "", image := "", altTag := "" } 0 true
      = "<div class=\"carousel-slide carousel-slide--active\" data-slide-index=\"0\"><div class=\"carousel-slide-content\"></div></div>" := by
  rw [c8_optional_elements_omitted.1
    { headline := "", bodyCopy := "", image := "", altTag := "" } 0 true rfl rfl rfl]
  rfl

end LgDemo
